import Mathlib

/-!
Shallow embedding of the qBittorrent Web-API client (src/index.ts) and proofs
about its session gate, state normalization, hash normalization, tracker
endpoints, upload handling and label aggregation.

Conventions of the embedding:
* JavaScript strings are `String`, JS numbers that the claims compare are `Rat`
  (`progress`, `ratio`) or `Int` (counters, epoch timestamps).
* JS truthiness on strings (`if (s)`) is `jsTruthy s`, i.e. non-emptiness.
* The mutable client object is a `ClientState` record threaded explicitly;
  a thrown exception is `Except.error` carrying the error message.
* Outbound HTTP traffic is recorded as a `List CallEvent` trace; the transport
  itself (got), cookie parsing (tough-cookie), form encoding and the
  filesystem are external collaborators, so the daemon's responses are inputs
  of the embedded operations.
* `new Date(x).toISOString()` is an external runtime rendering; the embedding
  keeps the epoch-millisecond value (`added_on * 1000`, `completion_on * 1000`)
  that the source passes to the `Date` constructor.
-/

/-- JavaScript truthiness of a string: every non-empty string is truthy. -/
def jsTruthy (s : String) : Bool := !s.isEmpty

/- The repository module `./types` (imported by src/index.ts as `qbtState`)
is not under src/; it declares the daemon's raw state string enum. The raw
state names below follow the mapping table of spec section 4.2; each value is
a distinct non-empty string, so each is JS-truthy (section 9 of the spec
calls the second operand of the first conditional in `_normalizeTorrentData`
an "always-true sub-expression"). -/
namespace qbtState

/-- Modelled from the spec: raw state of `./types`, missing from src/. -/
def Uploading : String := "uploading"

/-- Modelled from the spec: raw state of `./types`, missing from src/. -/
def CheckingUP : String := "checking-upload"

/-- Modelled from the spec: raw state of `./types`, missing from src/. -/
def Downloading : String := "downloading"

/-- Modelled from the spec: raw state of `./types`, missing from src/. -/
def CheckingDL : String := "checking-download"

/-- Modelled from the spec: raw state of `./types`, missing from src/. -/
def Error : String := "error"

/-- Modelled from the spec: raw state of `./types`, missing from src/. -/
def StalledDL : String := "stalled-download"

/-- Modelled from the spec: raw state of `./types`, missing from src/. -/
def QueuedDL : String := "queued-download"

/-- Modelled from the spec: raw state of `./types`, missing from src/. -/
def QueuedUP : String := "queued-upload"

/-- Modelled from the spec: raw state of `./types`, missing from src/. -/
def PausedDL : String := "paused-download"

/-- Modelled from the spec: raw state of `./types`, missing from src/. -/
def PausedUP : String := "paused-upload"

end qbtState

/-- The normalized cross-vendor state enum (`TorrentState` of the external
package shared-torrent; value set per spec section 3). -/
inductive TorrentState where
  | unknown
  | downloading
  | seeding
  | checking
  | error
  | queued
  | paused
  deriving DecidableEq, Repr

/-- Raw daemon torrent record (`Torrent` of `./types`), restricted to the
fields src/index.ts reads in `_normalizeTorrentData`. -/
structure Torrent where
  hash : String
  name : String
  state : String
  progress : Rat
  category : String
  added_on : Int
  completion_on : Int
  save_path : String
  upspeed : Int
  dlspeed : Int
  eta : Int
  priority : Int
  num_leechs : Int
  num_seeds : Int
  num_incomplete : Int
  num_complete : Int
  size : Int
  total_size : Int
  uploaded : Int
  downloaded : Int
  ratio : Rat
  deriving DecidableEq, Repr

/-- Normalized record (`NormalizedTorrent` of the external shared-torrent
package): the fields `_normalizeTorrentData` fills. `dateAdded` and
`dateCompleted` hold the epoch-millisecond argument the source passes to the
external `Date` constructor before ISO-8601 rendering. -/
structure NormalizedTorrent where
  id : String
  name : String
  stateMessage : String
  state : TorrentState
  dateAdded : Int
  isCompleted : Bool
  progress : Rat
  label : String
  dateCompleted : Int
  savePath : String
  uploadSpeed : Int
  downloadSpeed : Int
  eta : Int
  queuePosition : Int
  connectedPeers : Int
  connectedSeeds : Int
  totalPeers : Int
  totalSeeds : Int
  totalSelected : Int
  totalSize : Int
  totalUploaded : Int
  totalDownloaded : Int
  ratio : Rat
  deriving DecidableEq, Repr

/-- src/index.ts lines 451-495, `_normalizeTorrentData`. The first branch is
embedded exactly as written in the source:
`torrent.state === qbtState.Uploading || qbtState.CheckingUP`, whose second
operand is the enum constant itself (JS-truthy), not a comparison. -/
def _normalizeTorrentData (torrent : Torrent) : NormalizedTorrent :=
  let state : TorrentState :=
    if torrent.state == qbtState.Uploading || jsTruthy qbtState.CheckingUP then
      TorrentState.seeding
    else if torrent.state == qbtState.Downloading then
      TorrentState.downloading
    else if torrent.state == qbtState.CheckingDL then
      TorrentState.checking
    else if torrent.state == qbtState.Error || torrent.state == qbtState.StalledDL then
      TorrentState.error
    else if [qbtState.QueuedDL, qbtState.QueuedUP].contains torrent.state then
      TorrentState.queued
    else if torrent.state == qbtState.PausedDL || torrent.state == qbtState.PausedUP then
      TorrentState.paused
    else
      TorrentState.unknown
  let isCompleted : Bool := decide (torrent.progress >= 100)
  { id := torrent.hash
    name := torrent.name
    stateMessage := ""
    state := state
    dateAdded := torrent.added_on * 1000
    isCompleted := isCompleted
    progress := torrent.progress
    label := torrent.category
    dateCompleted := torrent.completion_on * 1000
    savePath := torrent.save_path
    uploadSpeed := torrent.upspeed
    downloadSpeed := torrent.dlspeed
    eta := torrent.eta
    queuePosition := torrent.priority
    connectedPeers := torrent.num_leechs
    connectedSeeds := torrent.num_seeds
    totalPeers := torrent.num_incomplete
    totalSeeds := torrent.num_complete
    totalSelected := torrent.size
    totalSize := torrent.total_size
    totalUploaded := torrent.uploaded
    totalDownloaded := torrent.downloaded
    ratio := torrent.ratio }

/-- The intended raw-to-normalized state mapping, written from the words of
the spec's section 4.2 table (first match wins, default unknown), for
comparison with the source's `_normalizeTorrentData`. -/
def tableState (s : String) : TorrentState :=
  if s == qbtState.Uploading || s == qbtState.CheckingUP then TorrentState.seeding
  else if s == qbtState.Downloading then TorrentState.downloading
  else if s == qbtState.CheckingDL then TorrentState.checking
  else if s == qbtState.Error || s == qbtState.StalledDL then TorrentState.error
  else if s == qbtState.QueuedDL || s == qbtState.QueuedUP then TorrentState.queued
  else if s == qbtState.PausedDL || s == qbtState.PausedUP then TorrentState.paused
  else TorrentState.unknown

/-- src/index.ts lines 443-449, `_normalizeHashes`: the TS union
`string | string[]` is `Sum String (List String)`; `Array.isArray` picks the
`Sum.inr` branch, and `hashes.join('|')` is `String.intercalate "|"`. -/
def _normalizeHashes : Sum String (List String) → String
  | Sum.inr hashes => String.intercalate "|" hashes
  | Sum.inl hashes => hashes

/-- The spec's words for hash-list normalization: "the elements joined by
the pipe character", written as direct recursion for comparison with the
source's `_normalizeHashes`. -/
def joinPipeSpec : List String → String
  | [] => ""
  | [a] => a
  | a :: b :: rest => a ++ "|" ++ joinPipeSpec (b :: rest)

/-- Client configuration (`TorrentSettings` of the external shared-torrent
package, src/index.ts lines 29-35): base URL, API path prefix, credentials,
timeout, optional proxy agent. -/
structure TorrentSettings where
  baseUrl : String
  path : String
  username : String
  password : String
  timeout : Nat
  agent : Option String
  deriving DecidableEq, Repr

/-- Mutable state of a `QBittorrent` client instance (src/index.ts lines
37-43): the configuration and the optional auth cookie `_sid`. -/
structure ClientState where
  config : TorrentSettings
  _sid : Option String
  deriving DecidableEq, Repr

/-- One outbound HTTP interaction: either the login POST to `/auth/login`
(src/index.ts line 379) or an authenticated call issued by `request`
(src/index.ts line 436) with its endpoint path, method and query params. -/
inductive CallEvent where
  | loginCall
  | httpCall (path : String) (method : String) (params : List (String × String))
  deriving DecidableEq, Repr

/-- A completed (2xx) transport response, as seen by the client: the
`set-cookie` header values and the decoded body. Non-2xx statuses and network
failures are raised inside the external transport (got) and never reach the
client code embedded here. -/
structure HttpResponse (α : Type) where
  setCookie : List String
  body : α
  deriving DecidableEq, Repr

/-- A parsed cookie as produced by the external tough-cookie library:
a key and a value. -/
structure Cookie where
  key : String
  value : String
  deriving DecidableEq, Repr

/-- Characters strictly before the first occurrence of `c`. -/
def takeUntil (c : Char) : List Char → List Char
  | [] => []
  | x :: xs => if x == c then [] else x :: takeUntil c xs

/-- Characters strictly after the first occurrence of `c` (all of the input
when `c` does not occur). -/
def dropThrough (c : Char) : List Char → List Char
  | [] => []
  | x :: xs => if x == c then xs else dropThrough c xs

/-- Whether `c` occurs in the list. -/
def containsChar (c : Char) : List Char → Bool
  | [] => false
  | x :: xs => x == c || containsChar c xs

/-- Model of the external tough-cookie `Cookie.parse`: the key/value pair is
the part of the header before the first `;`, split at its first `=`;
a pair with no `=` yields `none` (JS `undefined`). -/
def cookieParse (s : String) : Option Cookie :=
  let pair := takeUntil ';' s.toList
  if containsChar '=' pair then
    some { key := String.mk (takeUntil '=' pair)
           value := String.mk (dropThrough '=' pair) }
  else none

/-- src/index.ts lines 358-391, `login()`: POST the credentials to
`/auth/login` (recorded as `CallEvent.loginCall`; the transport response is
the input `resp`), then fail when the response carries no `set-cookie`
header, when the first cookie fails to parse, or when its key is not `SID`;
otherwise store the cookie value as `_sid` and return `true`. A failure
leaves the state unchanged (the source throws before assigning `_sid`). -/
def loginRun (st : ClientState) (resp : HttpResponse String) :
    List CallEvent × ClientState × Except String Bool :=
  if resp.setCookie.isEmpty then
    ([CallEvent.loginCall], st, Except.error "Cookie not found. Auth Failed.")
  else
    match cookieParse (resp.setCookie.headD "") with
    | none => ([CallEvent.loginCall], st, Except.error "Invalid cookie")
    | some cookie =>
      if cookie.key != "SID" then
        ([CallEvent.loginCall], st, Except.error "Invalid cookie")
      else
        ([CallEvent.loginCall], { st with _sid := some cookie.value }, Except.ok true)

/-- src/index.ts lines 393-396, `logout()`: clear `_sid` locally and return
`true`; no outbound call is made. -/
def logoutRun (st : ClientState) : List CallEvent × ClientState × Bool :=
  ([], { st with _sid := none }, true)

/-- src/index.ts lines 399-437, `request`: when `_sid` is absent, run
`login()` first, propagating its failure (the dead `if (!authed)` guard of
line 409 is kept: `login` only ever returns `true` or throws); then issue the
HTTP call to the joined URL with the session cookie attached. `loginResp` is
the transport's response to the login POST and `targetResp` its response to
the target call. -/
def requestRun {α : Type} (st : ClientState) (loginResp : HttpResponse String)
    (targetResp : HttpResponse α) (path method : String)
    (params : List (String × String)) :
    List CallEvent × ClientState × Except String (HttpResponse α) :=
  match st._sid with
  | none =>
    match loginRun st loginResp with
    | (tr, st2, Except.error e) => (tr, st2, Except.error e)
    | (tr, st2, Except.ok authed) =>
      if !authed then
        (tr, st2, Except.error "Auth Failed")
      else
        (tr ++ [CallEvent.httpCall path method params], st2, Except.ok targetResp)
  | some _ => ([CallEvent.httpCall path method params], st, Except.ok targetResp)

/-- The trace of outbound calls performed by one `request` invocation. -/
def requestTrace {α : Type} (st : ClientState) (loginResp : HttpResponse String)
    (targetResp : HttpResponse α) (path method : String)
    (params : List (String × String)) : List CallEvent :=
  (requestRun st loginResp targetResp path method params).1

/-- src/index.ts lines 314-318, `editTrackers`: GET
`/torrents/editTrackers` with `hash`, `origUrl`, `newUrl`; returns `true`. -/
def editTrackersRun (st : ClientState) (loginResp resp : HttpResponse String)
    (hash origUrl newUrl : String) :
    List CallEvent × ClientState × Except String Bool :=
  match requestRun st loginResp resp "/torrents/editTrackers" "GET"
      [("hash", hash), ("origUrl", origUrl), ("newUrl", newUrl)] with
  | (tr, st2, Except.error e) => (tr, st2, Except.error e)
  | (tr, st2, Except.ok _) => (tr, st2, Except.ok true)

/-- src/index.ts lines 320-324, `removeTrackers`: GET with `hash`, `urls`;
the endpoint path is `/torrents/editTrackers`, exactly as in the source. -/
def removeTrackersRun (st : ClientState) (loginResp resp : HttpResponse String)
    (hash urls : String) :
    List CallEvent × ClientState × Except String Bool :=
  match requestRun st loginResp resp "/torrents/editTrackers" "GET"
      [("hash", hash), ("urls", urls)] with
  | (tr, st2, Except.error e) => (tr, st2, Except.error e)
  | (tr, st2, Except.ok _) => (tr, st2, Except.ok true)

/-- src/index.ts lines 265-306, `addTorrent`, after the external multipart
form is built: POST `/torrents/add`, then throw `Failed to add torrent`
when the (2xx) response body is the sentinel string `Fails.`, else return
`true`. -/
def addTorrentRun (st : ClientState) (loginResp addResp : HttpResponse String) :
    List CallEvent × ClientState × Except String Bool :=
  match requestRun st loginResp addResp "/torrents/add" "POST" [] with
  | (tr, st2, Except.error e) => (tr, st2, Except.error e)
  | (tr, st2, Except.ok res) =>
    if res.body == "Fails." then
      (tr, st2, Except.error "Failed to add torrent")
    else
      (tr, st2, Except.ok true)

/-- Query params built by src/index.ts lines 81-99 `listTorrents` when called
with a single hash string and no filter or category (as `getTorrent` does):
`if (hashes)` is JS truthiness, so an empty hash string adds no parameter. -/
def listTorrentsParams (hash : String) : List (String × String) :=
  if jsTruthy hash then [("hashes", _normalizeHashes (Sum.inl hash))] else []

/-- src/index.ts lines 64-72, `getTorrent`: list torrents filtered by the
hash, take element 0 of the response body, throw the generic
`Torrent not found` error when it is absent, else normalize it. -/
def getTorrentRun (st : ClientState) (loginResp : HttpResponse String)
    (listResp : HttpResponse (List Torrent)) (hash : String) :
    List CallEvent × ClientState × Except String NormalizedTorrent :=
  match requestRun st loginResp listResp "/torrents/info" "GET"
      (listTorrentsParams hash) with
  | (tr, st2, Except.error e) => (tr, st2, Except.error e)
  | (tr, st2, Except.ok res) =>
    match res.body with
    | [] => (tr, st2, Except.error "Torrent not found")
    | torrentData :: _ => (tr, st2, Except.ok (_normalizeTorrentData torrentData))

/-- Label entry (`Label` of the external shared-torrent package). -/
structure Label where
  id : String
  name : String
  count : Int
  deriving DecidableEq, Repr

/-- Aggregate client data (`AllClientData` of the external shared-torrent
package): the normalized torrents and the label list. -/
structure AllClientData where
  torrents : List NormalizedTorrent
  labels : List Label
  deriving DecidableEq, Repr

/-- JS object property read `labels[key]`: `none` is `undefined`. -/
def objGet (m : List (String × Label)) (key : String) : Option Label :=
  Option.map (fun p => p.2) (List.find? (fun p => p.1 == key) m)

/-- JS object property write `labels[key] = v`. -/
def objSet (m : List (String × Label)) (key : String) (v : Label) :
    List (String × Label) :=
  match m with
  | [] => [(key, v)]
  | p :: rest => if p.1 == key then (key, v) :: rest else p :: objSet rest key v

/-- The loop body of src/index.ts lines 110-126: normalize each torrent and
push it; when its label is truthy, the source tests `if (labels[label])` and
in the then-branch stores a fresh entry with `count: 1`, while the
else-branch evaluates `labels[label].count += 1` — a property read on
`undefined`, which raises a TypeError (embedded as `Except.error`). -/
def getAllDataAux : List Torrent → List NormalizedTorrent →
    List (String × Label) →
    Except String (List NormalizedTorrent × List (String × Label))
  | [], acc, labels => Except.ok (acc.reverse, labels)
  | torrent :: rest, acc, labels =>
    let torrentData := _normalizeTorrentData torrent
    if jsTruthy torrentData.label then
      match objGet labels torrentData.label with
      | some _ =>
        getAllDataAux rest (torrentData :: acc)
          (objSet labels torrentData.label
            { id := torrentData.label, name := torrentData.label, count := 1 })
      | none =>
        Except.error
          "TypeError: Cannot read property count of undefined"
    else
      getAllDataAux rest (torrentData :: acc) labels

/-- src/index.ts lines 103-129, `getAllData`: run the loop over the listed
torrents; on success return the results object, whose `labels` array was
initialized to `[]` on line 107 and is never written afterwards (the local
`labels` map is discarded). -/
def getAllDataRun (listBody : List Torrent) : Except String AllClientData :=
  match getAllDataAux listBody [] [] with
  | Except.error e => Except.error e
  | Except.ok (torrents, _labelsMap) =>
    Except.ok { torrents := torrents, labels := [] }

/-- A concrete raw record used by witnesses and counterexamples. -/
def sampleTorrent : Torrent :=
  { hash := "abcd"
    name := "ubuntu.iso"
    state := qbtState.Downloading
    progress := 50
    category := "movies"
    added_on := 1600000000
    completion_on := 0
    save_path := "/downloads"
    upspeed := 10
    dlspeed := 20
    eta := 3600
    priority := 1
    num_leechs := 2
    num_seeds := 3
    num_incomplete := 4
    num_complete := 5
    size := 700
    total_size := 700
    uploaded := 100
    downloaded := 350
    ratio := 1/2 }

/-- A concrete configuration used by witnesses and counterexamples. -/
def sampleConfig : TorrentSettings :=
  { baseUrl := "http://localhost:9091/"
    path := "/api/v2"
    username := ""
    password := ""
    timeout := 5000
    agent := none }

/-- A fresh client state: no session token stored. -/
def freshState : ClientState := { config := sampleConfig, _sid := none }

/-- An authenticated client state holding a session token. -/
def authedState : ClientState := { config := sampleConfig, _sid := some "tok" }

/-- A login response whose first set-cookie entry is a valid SID cookie. -/
def goodLoginResp : HttpResponse String :=
  { setCookie := ["SID=tok; path=/"], body := "Ok." }

/-- A login response with no set-cookie header. -/
def noCookieResp : HttpResponse String :=
  { setCookie := [], body := "Fails." }

/-- A plain response body used as a target response in witnesses. -/
def plainResp : HttpResponse String :=
  { setCookie := [], body := "ok" }

/-- An add-torrent response carrying the daemon's sentinel failure body. -/
def failsResp : HttpResponse String :=
  { setCookie := [], body := "Fails." }

/-- A torrent-list response with no matching record. -/
def emptyListResp : HttpResponse (List Torrent) :=
  { setCookie := [], body := [] }

lemma loginRun_fst (st : ClientState) (resp : HttpResponse String) :
    (loginRun st resp).1 = [CallEvent.loginCall] := by
  unfold loginRun
  split
  · rfl
  · split
    · rfl
    · split <;> rfl

lemma loginRun_ok_true (st : ClientState) (resp : HttpResponse String)
    (tr : List CallEvent) (st2 : ClientState) (b : Bool)
    (h : loginRun st resp = (tr, st2, Except.ok b)) : b = true := by
  unfold loginRun at h
  split at h
  · simp_all
  · split at h
    · simp_all
    · split at h <;> simp_all

/-- C1: the first conditional of `_normalizeTorrentData` has the truthy enum
constant `qbtState.CheckingUP` itself as its second operand, so its branch
always matches and every raw state normalizes to `seeding`; the spec's
section 4.2 table instead sends the raw `downloading` state to
`downloading`. -/
theorem normalizeState_always_seeding :
    (∀ t : Torrent, (_normalizeTorrentData t).state = TorrentState.seeding)
    ∧ tableState qbtState.Downloading = TorrentState.downloading := by
  constructor
  · intro t
    have h : jsTruthy qbtState.CheckingUP = true := rfl
    simp [_normalizeTorrentData, h]
  · rfl

/-- C2: with no stored session token, `request` performs exactly one login
call, placed before everything else, and issues the target HTTP call exactly
when that login succeeded; with a token already stored it performs zero
login calls and issues only the target call. -/
theorem request_session_gate {α : Type} (st : ClientState)
    (loginResp : HttpResponse String) (targetResp : HttpResponse α)
    (path method : String) (params : List (String × String)) :
    (st._sid = none →
      requestTrace st loginResp targetResp path method params =
        CallEvent.loginCall ::
          (match (loginRun st loginResp).2.2 with
           | Except.ok _ => [CallEvent.httpCall path method params]
           | Except.error _ => []))
    ∧ (st._sid ≠ none →
      requestTrace st loginResp targetResp path method params =
        [CallEvent.httpCall path method params]) := by
  constructor
  · intro hnone
    rcases hl : loginRun st loginResp with ⟨tr, st2, r⟩
    have htr : tr = [CallEvent.loginCall] := by
      have h2 := loginRun_fst st loginResp
      rw [hl] at h2
      exact h2
    subst htr
    cases r with
    | error e => simp [requestTrace, requestRun, hnone, hl]
    | ok b =>
      have hb := loginRun_ok_true st loginResp _ _ _ hl
      subst hb
      simp [requestTrace, requestRun, hnone, hl]
  · intro hsome
    cases h : st._sid with
    | none => exact absurd h hsome
    | some s => simp [requestTrace, requestRun, h]

/-- Witness for C2: a fresh client and a valid login response yield the
trace login-then-target; the session branch of the theorem is discharged at
`freshState`, whose token is absent. -/
theorem request_session_gate_witness :
    requestTrace freshState goodLoginResp plainResp "/app/version" "GET" [] =
      [CallEvent.loginCall, CallEvent.httpCall "/app/version" "GET" []] := by
  have h :=
    (request_session_gate freshState goodLoginResp plainResp "/app/version" "GET" []).1 rfl
  exact h.trans rfl

/-- C3: a login response carrying no set-cookie header, or whose first
cookie parses with a key other than `SID`, makes `login()` throw an
authentication error and leaves the client state — in particular the stored
session token — unchanged. -/
theorem login_failure_keeps_state (st : ClientState) (resp : HttpResponse String) :
    (resp.setCookie = [] →
      loginRun st resp =
        ([CallEvent.loginCall], st, Except.error "Cookie not found. Auth Failed."))
    ∧ (∀ s rest c, resp.setCookie = s :: rest → cookieParse s = some c →
        c.key ≠ "SID" →
        loginRun st resp =
          ([CallEvent.loginCall], st, Except.error "Invalid cookie")) := by
  constructor
  · intro h
    simp [loginRun, h]
  · intro s rest c hsc hparse hkey
    simp [loginRun, hsc, hparse, hkey]

/-- Witness for C3 at a concrete cookieless login response. -/
theorem login_failure_keeps_state_witness :
    loginRun freshState noCookieResp =
      ([CallEvent.loginCall], freshState,
        Except.error "Cookie not found. Auth Failed.") :=
  (login_failure_keeps_state freshState noCookieResp).1 rfl

/-- C4: when the add-torrent HTTP call completes (2xx), a response body equal
to the sentinel `Fails.` makes `addTorrent` throw `Failed to add torrent`
rather than succeed, and any other body yields a successful `true` return. -/
theorem addTorrent_sentinel_rejected (st : ClientState)
    (loginResp addResp : HttpResponse String) (tr : List CallEvent)
    (st2 : ClientState) (res : HttpResponse String)
    (h : requestRun st loginResp addResp "/torrents/add" "POST" [] =
      (tr, st2, Except.ok res)) :
    (res.body = "Fails." →
      addTorrentRun st loginResp addResp =
        (tr, st2, Except.error "Failed to add torrent"))
    ∧ (res.body ≠ "Fails." →
      addTorrentRun st loginResp addResp = (tr, st2, Except.ok true)) := by
  constructor
  · intro hb
    simp [addTorrentRun, h, hb]
  · intro hb
    simp [addTorrentRun, h, hb]

/-- Witness for C4: an authenticated client receiving the sentinel body gets
the upload-rejected error. -/
theorem addTorrent_sentinel_rejected_witness :
    addTorrentRun authedState goodLoginResp failsResp =
      ([CallEvent.httpCall "/torrents/add" "POST" []], authedState,
        Except.error "Failed to add torrent") :=
  (addTorrent_sentinel_rejected authedState goodLoginResp failsResp
    [CallEvent.httpCall "/torrents/add" "POST" []] authedState failsResp rfl).1 rfl

/-- C5: the normalized record's `isCompleted` flag is true exactly when the
raw progress (0-100 scale) is at least 100; values above 100 are accepted by
the same comparison and yield true. -/
theorem isCompleted_iff_progress_ge_100 (t : Torrent) :
    (_normalizeTorrentData t).isCompleted = true ↔ 100 ≤ t.progress := by
  simp [_normalizeTorrentData]

/-- Pipe-prefixed concatenation: the tail shape produced by the join
accumulator, used to bridge `String.intercalate` and `joinPipeSpec`. -/
def pipePrefixed : List String → String
  | [] => ""
  | a :: as => "|" ++ a ++ pipePrefixed as

lemma intercalate_go_pipe (l : List String) :
    ∀ acc, String.intercalate.go acc "|" l = acc ++ pipePrefixed l := by
  induction l with
  | nil =>
    intro acc
    rw [String.intercalate.go, pipePrefixed, String.append_empty]
  | cons a as ih =>
    intro acc
    rw [String.intercalate.go, ih, pipePrefixed]
    simp [String.append_assoc]

lemma joinPipeSpec_cons (a : String) (as : List String) :
    joinPipeSpec (a :: as) = a ++ pipePrefixed as := by
  induction as generalizing a with
  | nil => rw [joinPipeSpec, pipePrefixed, String.append_empty]
  | cons b bs ih =>
    rw [joinPipeSpec, ih b, pipePrefixed]
    simp [String.append_assoc]

lemma intercalate_pipe_eq_joinPipeSpec (l : List String) :
    String.intercalate "|" l = joinPipeSpec l := by
  cases l with
  | nil => rfl
  | cons a as =>
    rw [String.intercalate, intercalate_go_pipe, joinPipeSpec_cons]

/-- C6: hash normalization sends a list of hashes to its elements joined by
the pipe character — in particular a pair joins with one separator and a
singleton stays bare — and leaves any plain string, including the literal
`all`, unchanged. -/
theorem normalizeHashes_spec :
    (∀ l : List String, _normalizeHashes (Sum.inr l) = joinPipeSpec l)
    ∧ (∀ a b : String, _normalizeHashes (Sum.inr [a, b]) = a ++ "|" ++ b)
    ∧ (∀ a : String, _normalizeHashes (Sum.inr [a]) = a)
    ∧ (∀ s : String, _normalizeHashes (Sum.inl s) = s)
    ∧ _normalizeHashes (Sum.inl "all") = "all" := by
  refine ⟨?_, ?_, ?_, ?_, rfl⟩
  · intro l
    rw [_normalizeHashes, intercalate_pipe_eq_joinPipeSpec]
  · intro a b
    rw [_normalizeHashes, String.intercalate, String.intercalate.go,
      String.intercalate.go]
  · intro a
    rw [_normalizeHashes, String.intercalate, String.intercalate.go]
  · intro s
    rw [_normalizeHashes]

/-- C7: `removeTrackers` issues its request to `/torrents/editTrackers` —
the very endpoint `editTrackers` requests — not to a distinct
remove-trackers endpoint. -/
theorem removeTrackers_hits_editTrackers_endpoint :
    (removeTrackersRun authedState goodLoginResp plainResp "h" "u").1 =
      [CallEvent.httpCall "/torrents/editTrackers" "GET"
        [("hash", "h"), ("urls", "u")]]
    ∧ (editTrackersRun authedState goodLoginResp plainResp "h" "o" "n").1 =
      [CallEvent.httpCall "/torrents/editTrackers" "GET"
        [("hash", "h"), ("origUrl", "o"), ("newUrl", "n")]] :=
  ⟨rfl, rfl⟩

/-- C8: when the torrent-list lookup returns no matching record,
`getTorrent` throws the generic `Torrent not found` error; when matches
exist it returns the normalized form of the first one. -/
theorem getTorrent_not_found_or_first (st : ClientState)
    (loginResp : HttpResponse String) (listResp : HttpResponse (List Torrent))
    (hash : String) (tr : List CallEvent) (st2 : ClientState)
    (res : HttpResponse (List Torrent))
    (h : requestRun st loginResp listResp "/torrents/info" "GET"
      (listTorrentsParams hash) = (tr, st2, Except.ok res)) :
    (res.body = [] →
      getTorrentRun st loginResp listResp hash =
        (tr, st2, Except.error "Torrent not found"))
    ∧ (∀ t rest, res.body = t :: rest →
      getTorrentRun st loginResp listResp hash =
        (tr, st2, Except.ok (_normalizeTorrentData t))) := by
  constructor
  · intro hb
    simp [getTorrentRun, h, hb]
  · intro t rest hb
    simp [getTorrentRun, h, hb]

/-- Witness for C8: an authenticated client whose hash lookup returns an
empty list gets the generic not-found error. -/
theorem getTorrent_not_found_or_first_witness :
    getTorrentRun authedState goodLoginResp emptyListResp "abcd" =
      ([CallEvent.httpCall "/torrents/info" "GET" [("hashes", "abcd")]],
        authedState, Except.error "Torrent not found") :=
  (getTorrent_not_found_or_first authedState goodLoginResp emptyListResp "abcd"
    [CallEvent.httpCall "/torrents/info" "GET" [("hashes", "abcd")]]
    authedState emptyListResp rfl).1 rfl

/-- C9: `logout` makes no outbound call, returns `true`, clears the stored
session token, and leaves every other field of the client state — in
particular the configuration — unchanged. -/
theorem logout_clears_only_sid (st : ClientState) :
    logoutRun st = ([], { config := st.config, _sid := none }, true) := rfl

/-- C10: label aggregation crashes instead of counting: on the first torrent
bearing a non-empty category, the source's inverted existence check reaches
`labels[label].count += 1` with `labels[label]` undefined, raising a
TypeError rather than completing with that category counted once. -/
theorem getAllData_label_TypeError :
    getAllDataRun [sampleTorrent] =
      Except.error "TypeError: Cannot read property count of undefined" := rfl
